import Mathlib

/-!
# Job application tracker — shallow embedding

A shallow embedding of the job-application tracker (files `Job_tracker.py` and
`app.py`): an SQLite-backed store of job records with create / read / update /
filter / search / aggregate operations.  The SQLite `jobs` table is modelled as
a list of rows kept in rowid (insertion) order together with the
auto-increment counter; `ORDER BY id DESC` on the rowid-keyed table is a
reverse scan, `GROUP BY status` groups rows by their exact status value with
`NULL` forming a single group, `LOWER` lowercases ASCII letters, and `LIKE` is
the SQL pattern match with `%` and `_` wildcards.
-/

namespace JobTracker

/-! ## String primitives

`String.trim` and `String.toLower` from the Lean library are defined through
byte-position recursion that the kernel cannot evaluate, so the embedding uses
its own character-list implementations. -/

/-- Python `str.strip()`: drop whitespace from both ends.  (Python also strips
a few exotic Unicode spaces that no input in any claim contains.) -/
def strip (s : String) : String :=
  ⟨((s.data.dropWhile Char.isWhitespace).reverse.dropWhile Char.isWhitespace).reverse⟩

/-- ASCII lowercasing: SQLite `LOWER` lowercases exactly the ASCII letters, and
Python `str.lower()` agrees with it on ASCII text (the only text the claims
exercise). -/
def lower (s : String) : String :=
  ⟨s.data.map Char.toLower⟩

/-! ## Salary token parsing (Python `float(...)`) -/

/-- Numeric value of a list of decimal digit characters (most significant first). -/
def digitsToNat (ds : List Char) : Nat :=
  ds.foldl (fun n c => 10 * n + (c.toNat - 48)) 0

/-- Strip an optional leading sign, returning the sign as `1` or `-1`. -/
def splitSign : List Char → Int × List Char
  | '+' :: cs => (1, cs)
  | '-' :: cs => (-1, cs)
  | cs => (1, cs)

/-- Parse the mantissa part of a float literal: `D+`, `D+.D*` or `.D+`.
Returns the digits read as an integer, the number of fractional digits, and
the unconsumed rest. -/
def parseMantissa (cs : List Char) : Option (Nat × Nat × List Char) :=
  let ip := cs.takeWhile Char.isDigit
  let r1 := cs.dropWhile Char.isDigit
  match r1 with
  | '.' :: r2 =>
    let fp := r2.takeWhile Char.isDigit
    let r3 := r2.dropWhile Char.isDigit
    if ip.isEmpty && fp.isEmpty then none
    else some (digitsToNat (ip ++ fp), fp.length, r3)
  | _ => if ip.isEmpty then none else some (digitsToNat ip, 0, r1)

/-- Parse an optional exponent suffix `eD+` / `E[+-]D+`; the whole rest of the
input must be consumed. -/
def parseExp : List Char → Option Int
  | [] => some 0
  | c :: cs =>
    if c = 'e' ∨ c = 'E' then
      let (sg, r1) := splitSign cs
      let ds := r1.takeWhile Char.isDigit
      let r2 := r1.dropWhile Char.isDigit
      if ds.isEmpty || !r2.isEmpty then none
      else some (sg * (digitsToNat ds : Int))
    else none

/-- Python `float(token)` on an already-stripped token, returning `none` when a
`ValueError` would be raised.  Finite decimal and scientific-notation literals
are modelled exactly; the exotic forms `inf`, `nan` and underscore digit
separators (which no claim exercises) are not accepted by this model. -/
def parseSalary (s : String) : Option Rat :=
  let (sg, r0) := splitSign s.data
  match parseMantissa r0 with
  | none => none
  | some (m, fl, rest) =>
    match parseExp rest with
    | none => none
    | some e =>
      let ex : Int := e - (fl : Int)
      if 0 ≤ ex then some (((sg * (m : Int) * 10 ^ ex.toNat : Int) : Rat))
      else some (mkRat (sg * (m : Int)) (10 ^ (-ex).toNat))

/-! ## SQL LIKE -/

/-- SQL `LIKE` pattern matching over characters: `%` matches any (possibly
empty) sequence — i.e. the rest of the pattern may resume at any suffix of the
text — `_` matches any single character, anything else matches itself.  Both
sides are already lowercased by the queries that use it. -/
def likeMatch : List Char → List Char → Bool
  | [], s => s.isEmpty
  | '%' :: ps, s => s.tails.any (fun t => likeMatch ps t)
  | _ :: _, [] => false
  | c :: ps, d :: ds => if c = '_' then likeMatch ps ds else (c == d) && likeMatch ps ds

/-- SQL `LIKE` on strings: `sqlLike pat s` is `s LIKE pat`. -/
def sqlLike (pat s : String) : Bool :=
  likeMatch pat.data s.data

/-! ## Data model: the `jobs` table -/

/-- One row of the `jobs` table.  `company` and `role` are `NOT NULL`; the
other payload columns are nullable.  `salary` is the `REAL` column, modelled
over `Rat`. -/
structure Job where
  id : Nat
  company : String
  role : String
  location : Option String
  applied_date : Option String
  status : Option String
  salary : Option Rat
  notes : Option String
deriving DecidableEq, Repr

/-- The database state: the `jobs` table rows in rowid (insertion) order plus
the `AUTOINCREMENT` counter for the next `id`. -/
structure Store where
  nextId : Nat
  jobs : List Job
deriving DecidableEq, Repr

/-- A freshly created database: no rows, ids start at 1. -/
def emptyStore : Store := ⟨1, []⟩

/-- Well-formedness of a representable SQLite state: the rowid-keyed table
stores rows in strictly increasing id order, and every id is below the
auto-increment counter (`AUTOINCREMENT` never reuses ids). -/
def Store.WF (st : Store) : Prop :=
  st.jobs.Pairwise (fun a b => a.id < b.id) ∧ ∀ j ∈ st.jobs, j.id < st.nextId

/-! ## Repository operations (Job_tracker.py) -/

/-- Result of `add_job`: validation failure (nothing stored), or a saved row
together with whether a salary `CoercionWarning` was printed. -/
inductive AddResult where
  | validationError : AddResult
  | saved : Bool → AddResult
deriving DecidableEq, Repr

/-- Salary coercion in `add_job` (Job_tracker.py lines 60-67): empty token →
`NULL`; unparseable token → `NULL` plus the "Invalid salary entered" warning.
Returns the stored salary and whether the warning was signalled. -/
def createSalary (tok : String) : Option Rat × Bool :=
  if tok = "" then (none, false)
  else
    match parseSalary tok with
    | some v => (some v, false)
    | none => (none, true)

/-- Salary coercion in `update_job` (Job_tracker.py lines 288-295): empty token
→ keep the old value; unparseable token → keep the old value plus the
"Invalid salary entered. Keeping old salary." warning. -/
def updateSalary (tok : String) (old : Option Rat) : Option Rat × Bool :=
  if tok = "" then (old, false)
  else
    match parseSalary tok with
    | some v => (some v, false)
    | none => (old, true)

/-- Salary handling in the dashboard's manage page (app.py lines 300-307):
blank input clears the salary to `NULL`; an unparseable token keeps the old
value plus the "Invalid salary. Keeping old value." warning. -/
def manageSalary (tok : String) (old : Option Rat) : Option Rat × Bool :=
  if tok = "" then (none, false)
  else
    match parseSalary tok with
    | some v => (some v, false)
    | none => (old, true)

/-- `add_job` (Job_tracker.py lines 41-83).  Every input is stripped; if
`company` or `role` is empty the job is not saved; the salary token is coerced
by `createSalary`; the row is inserted with the next id.  The optional text
inputs are inserted as the (possibly empty) strings themselves — only the
salary is ever inserted as `NULL`. -/
def add_job (st : Store) (company role location applied_date status salary_input notes : String) :
    AddResult × Store :=
  let company := strip company
  let role := strip role
  let location := strip location
  let applied_date := strip applied_date
  let status := strip status
  let salary_input := strip salary_input
  let notes := strip notes
  if company = "" ∨ role = "" then (AddResult.validationError, st)
  else
    (AddResult.saved (createSalary salary_input).2,
      { nextId := st.nextId + 1,
        jobs := st.jobs ++ [{ id := st.nextId, company := company, role := role,
                              location := some location, applied_date := some applied_date,
                              status := some status, salary := (createSalary salary_input).1,
                              notes := some notes }] })

/-- `get_job_by_id` (Job_tracker.py lines 230-244): `SELECT ... WHERE id = ?`
returning the first matching row or `None`. -/
def get_job_by_id (st : Store) (job_id : Nat) : Option Job :=
  st.jobs.find? (fun j => j.id == job_id)

/-- The `UPDATE jobs SET status = ?, applied_date = ?, salary = ?, notes = ?
WHERE id = ?` statement applied to one row: rows whose id matches receive the
four new values, every other row is untouched. -/
def applyUpdate (job_id : Nat) (status' date' : Option String) (salary' : Option Rat)
    (notes' : Option String) (r : Job) : Job :=
  if r.id == job_id then
    { r with status := status', applied_date := date', salary := salary',
             notes := notes' }
  else r

/-- `update_job` (Job_tracker.py lines 247-311) for an already-parsed id.
Returns `none` when no job has that id (nothing is changed), otherwise
`some warn` where `warn` records the salary coercion warning.  Each stripped
blank input keeps the corresponding existing value of the fetched job; the
`UPDATE ... SET` then touches only `status`, `applied_date`, `salary` and
`notes` of the rows whose id matches. -/
def update_job (st : Store) (job_id : Nat)
    (new_status new_date new_salary_input new_notes : String) :
    Option Bool × Store :=
  match get_job_by_id st job_id with
  | none => (none, st)
  | some j =>
    (some (updateSalary (strip new_salary_input) j.salary).2,
      { st with jobs :=
          st.jobs.map (applyUpdate job_id
            (if strip new_status = "" then j.status else some (strip new_status))
            (if strip new_date = "" then j.applied_date else some (strip new_date))
            ((updateSalary (strip new_salary_input) j.salary).1)
            (if strip new_notes = "" then j.notes else some (strip new_notes))) })

/-! ## Query operations -/

/-- `view_all_jobs` (Job_tracker.py lines 86-97): `SELECT ... ORDER BY id
DESC` — a reverse scan of the rowid-keyed table. -/
def view_all_jobs (st : Store) : List Job :=
  st.jobs.reverse

/-- The `WHERE LOWER(status) = ?` predicate of `view_by_status`:
`LOWER(NULL)` is `NULL`, which never compares equal. -/
def statusFilterMatches (status_clean : String) (j : Job) : Bool :=
  match j.status with
  | some t => lower t == status_clean
  | none => false

/-- `view_by_status` (Job_tracker.py lines 127-151) for a given input string:
the input is stripped, an empty input means "no query performed" (`none`);
otherwise the lowered input is compared with `LOWER(status)`.  The query has
NO `ORDER BY`, so rows come back in table (rowid) order. -/
def view_by_status (st : Store) (status_input : String) : Option (List Job) :=
  if strip status_input = "" then none
  else some (st.jobs.filter (statusFilterMatches (lower (strip status_input))))

/-- The `WHERE ... LIKE ...` disjunction of `search_jobs`: the lowered pattern
is tried against `LOWER(company)`, `LOWER(role)` and `LOWER(location)`; a
`NULL` location never matches. -/
def searchRowMatches (like_pattern : String) (j : Job) : Bool :=
  sqlLike like_pattern (lower j.company) || sqlLike like_pattern (lower j.role) ||
    (match j.location with
     | some l => sqlLike like_pattern (lower l)
     | none => false)

/-- `search_jobs` (Job_tracker.py lines 345-372) for a given input string: the
keyword is stripped and lowered, an empty keyword means "no query performed"
(`none`); otherwise rows matching `LIKE '%keyword%'` on company, role or
location are returned `ORDER BY id DESC`. -/
def search_jobs (st : Store) (keyword : String) : Option (List Job) :=
  if lower (strip keyword) = "" then none
  else
    some ((st.jobs.filter
      (searchRowMatches ("%" ++ lower (strip keyword) ++ "%"))).reverse)

/-- The row sequence produced by `export_to_csv`'s `SELECT ... ORDER BY id
DESC` (Job_tracker.py lines 400-413); the CSV writer then emits a header row
followed by these rows. -/
def export_rows (st : Store) : List Job :=
  st.jobs.reverse

/-! ## Aggregation (`show_stats`, Job_tracker.py lines 179-225) -/

/-- `SELECT COUNT(*) FROM jobs`. -/
def show_stats_total (st : Store) : Nat :=
  st.jobs.length

/-- The group keys of `GROUP BY status`: the distinct status values, `NULL`
forming a single group of its own. -/
def statusKeys (st : Store) : List (Option String) :=
  (st.jobs.map Job.status).dedup

/-- The display label of a status group: Python's `status if status else
"Unknown"` maps both `None` and the empty string to `"Unknown"`. -/
def statusLabel : Option String → String
  | none => "Unknown"
  | some s => if s = "" then "Unknown" else s

/-- The labelled per-status counts printed by `show_stats`: one entry per
`GROUP BY status` group, carrying the group's row count.  (`show_stats` also
prints the top five companies; no claim concerns that part.) -/
def show_stats_by_status (st : Store) : List (String × Nat) :=
  (statusKeys st).map (fun k => (statusLabel k, (st.jobs.map Job.status).count k))

/-! ## Concrete states used by witnesses and counterexamples -/

/-- Two records with (case-variant) status "Applied", created through
`add_job`. -/
def twoApplied : Store :=
  (add_job (add_job emptyStore "Acme" "Engineer" "NYC" "2025-01-01" "Applied" "50000" "n1").2
    "Globex" "Manager" "" "" "applied" "" "").2

/-- The first record of `twoApplied`. -/
def appliedJob1 : Job :=
  { id := 1, company := "Acme", role := "Engineer", location := some "NYC",
    applied_date := some "2025-01-01", status := some "Applied",
    salary := some (50000 : Rat), notes := some "n1" }

/-- One record whose company is "axb", created through `add_job`. -/
def axbStore : Store :=
  (add_job emptyStore "axb" "Dev" "" "" "" "" "").2

/-- The record stored in `axbStore`. -/
def axbJob : Job :=
  { id := 1, company := "axb", role := "Dev", location := some "",
    applied_date := some "", status := some "", salary := none, notes := some "" }

/-- One record with status "Interview", created through `add_job`. -/
def interviewStore : Store :=
  (add_job emptyStore "Acme" "Engineer" "" "" "Interview" "" "").2

/-- The record stored in `interviewStore`. -/
def interviewJob : Job :=
  { id := 1, company := "Acme", role := "Engineer", location := some "",
    applied_date := some "", status := some "Interview", salary := none, notes := some "" }

/-- One record whose company contains "Acme", created through `add_job`. -/
def acmeStore : Store :=
  (add_job emptyStore "Acme Corp" "Engineer" "Berlin" "2025-02-02" "Applied" "" "").2

/-- The record stored in `acmeStore`. -/
def acmeJob : Job :=
  { id := 1, company := "Acme Corp", role := "Engineer", location := some "Berlin",
    applied_date := some "2025-02-02", status := some "Applied", salary := none,
    notes := some "" }

/-- A row whose status is the literal string "Unknown". -/
def unknownStatusJob : Job :=
  { id := 1, company := "Acme", role := "Engineer", location := none,
    applied_date := none, status := some "Unknown", salary := none, notes := none }

/-- A row whose status is `NULL`. -/
def nullStatusJob : Job :=
  { id := 2, company := "Globex", role := "Clerk", location := none,
    applied_date := none, status := none, salary := none, notes := none }

/-- A table state holding an "Unknown"-status row and a `NULL`-status row.
`add_job` itself never inserts a `NULL` status (blank input is stored as the
empty string), but the schema permits `NULL` and the claims about null
statuses quantify over every store state. -/
def nullStatusStore : Store :=
  ⟨3, [unknownStatusJob, nullStatusJob]⟩

end JobTracker

namespace JobTracker

/-! ## Lemmas about `likeMatch` -/

theorem likeMatch_nil (s : List Char) : likeMatch [] s = s.isEmpty := rfl

theorem likeMatch_pct (ps s : List Char) :
    likeMatch ('%' :: ps) s = s.tails.any (fun t => likeMatch ps t) := by
  simp [likeMatch]

theorem likeMatch_lit_nil {c : Char} (h : c ≠ '%') (ps : List Char) :
    likeMatch (c :: ps) [] = false := by
  simp [likeMatch, h]

theorem likeMatch_lit_cons {c : Char} (h : c ≠ '%') (h2 : c ≠ '_') (ps : List Char)
    (d : Char) (ds : List Char) :
    likeMatch (c :: ps) (d :: ds) = ((c == d) && likeMatch ps ds) := by
  simp [likeMatch, h, h2]

theorem likeMatch_pct_end (s : List Char) : likeMatch ['%'] s = true := by
  rw [likeMatch_pct, List.any_eq_true]
  exact ⟨[], (List.mem_tails _ _).mpr List.nil_suffix, rfl⟩

theorem likeMatch_pct_iff (ps s : List Char) :
    likeMatch ('%' :: ps) s = true ↔ ∃ t, t <:+ s ∧ likeMatch ps t = true := by
  rw [likeMatch_pct, List.any_eq_true]
  constructor
  · rintro ⟨t, ht, h⟩; exact ⟨t, (List.mem_tails _ _).mp ht, h⟩
  · rintro ⟨t, ht, h⟩; exact ⟨t, (List.mem_tails _ _).mpr ht, h⟩

theorem likeMatch_lit_append (rest : List Char) :
    ∀ p s, (∀ c ∈ p, c ≠ '%' ∧ c ≠ '_') →
      (likeMatch (p ++ rest) s = true ↔ ∃ b, s = p ++ b ∧ likeMatch rest b = true) := by
  intro p
  induction p with
  | nil => intro s _; simp
  | cons c cs ih =>
    intro s hp
    obtain ⟨hc1, hc2⟩ := hp c (by simp)
    have hp' : ∀ x ∈ cs, x ≠ '%' ∧ x ≠ '_' := fun x hx => hp x (by simp [hx])
    cases s with
    | nil =>
      rw [List.cons_append, likeMatch_lit_nil hc1]
      simp
    | cons d ds =>
      rw [List.cons_append, likeMatch_lit_cons hc1 hc2, Bool.and_eq_true, beq_iff_eq,
        ih ds hp']
      constructor
      · rintro ⟨hcd, b, hb1, hb2⟩
        exact ⟨b, by rw [List.cons_append, ← hcd, ← hb1], hb2⟩
      · rintro ⟨b, hb1, hb2⟩
        rw [List.cons_append, List.cons.injEq] at hb1
        exact ⟨hb1.1.symm, b, hb1.2, hb2⟩

/-- For a wildcard-free keyword, SQL `LIKE '%keyword%'` is exactly
"keyword occurs as a contiguous substring". -/
theorem likeMatch_infix_iff {p : List Char} (hp : ∀ c ∈ p, c ≠ '%' ∧ c ≠ '_')
    (s : List Char) :
    likeMatch ('%' :: (p ++ ['%'])) s = true ↔ p <:+: s := by
  rw [likeMatch_pct_iff]
  constructor
  · rintro ⟨t, ⟨a, ha⟩, h⟩
    obtain ⟨b, hb, -⟩ := (likeMatch_lit_append ['%'] p t hp).mp h
    exact ⟨a, b, by rw [List.append_assoc, ← hb, ha]⟩
  · rintro ⟨a, b, hab⟩
    refine ⟨p ++ b, ⟨a, ?_⟩, (likeMatch_lit_append ['%'] p _ hp).mpr ⟨b, rfl, likeMatch_pct_end b⟩⟩
    rw [← hab, List.append_assoc]

/-- The search predicate of one row, for a wildcard-free keyword: substring of
the lowered company or role, or of the lowered location when it is non-null. -/
theorem searchRowMatches_iff (kw : String) (hw : ∀ c ∈ kw.data, c ≠ '%' ∧ c ≠ '_')
    (j : Job) :
    searchRowMatches ("%" ++ kw ++ "%") j = true ↔
      (kw.data <:+: (lower j.company).data ∨ kw.data <:+: (lower j.role).data ∨
        ∃ loc, j.location = some loc ∧ kw.data <:+: (lower loc).data) := by
  have hdata : ("%" ++ kw ++ "%").data = '%' :: (kw.data ++ ['%']) := by
    simp [String.data_append]
  unfold searchRowMatches sqlLike
  rw [hdata]
  cases hj : j.location with
  | none => simp [likeMatch_infix_iff hw, hj]
  | some loc => simp [likeMatch_infix_iff hw, hj, or_assoc]

/-! ## Lemmas about the query and update operations -/

/-- A successful status query comes from a non-blank input and is the
unordered `WHERE LOWER(status) = ?` filter of the table. -/
theorem view_by_status_eq_some {st : Store} {q : String} {l : List Job}
    (hl : view_by_status st q = some l) :
    strip q ≠ "" ∧ l = st.jobs.filter (statusFilterMatches (lower (strip q))) := by
  unfold view_by_status at hl
  split at hl
  · cases hl
  · rename_i hq
    exact ⟨hq, (Option.some.inj hl).symm⟩

/-- A successful search comes from a non-blank keyword and is the `LIKE`
filter of the table, reversed by `ORDER BY id DESC`. -/
theorem search_jobs_eq_some {st : Store} {kw : String} {l : List Job}
    (hl : search_jobs st kw = some l) :
    lower (strip kw) ≠ "" ∧
      l = (st.jobs.filter (searchRowMatches ("%" ++ lower (strip kw) ++ "%"))).reverse := by
  unfold search_jobs at hl
  split at hl
  · cases hl
  · rename_i hkw
    exact ⟨hkw, (Option.some.inj hl).symm⟩

theorem applyUpdate_id (job_id : Nat) (a b : Option String) (c : Option Rat)
    (d : Option String) (r : Job) : (applyUpdate job_id a b c d r).id = r.id := by
  unfold applyUpdate
  split <;> rfl

theorem find?_map_applyUpdate (jobs : List Job) (job_id : Nat) (a b : Option String)
    (c : Option Rat) (d : Option String) :
    (jobs.map (applyUpdate job_id a b c d)).find? (fun r => r.id == job_id) =
      (jobs.find? (fun r => r.id == job_id)).map (applyUpdate job_id a b c d) := by
  rw [List.find?_map]
  have hfun : ((fun r : Job => r.id == job_id) ∘ applyUpdate job_id a b c d) =
      (fun r : Job => r.id == job_id) := by
    funext r
    simp only [Function.comp_apply, applyUpdate]
    split <;> rfl
  rw [hfun]

/-- `update_job` on a found job, written out. -/
theorem update_job_eq {st : Store} {job_id : Nat} (ns nd nsi nn : String) {j : Job}
    (hj : get_job_by_id st job_id = some j) :
    update_job st job_id ns nd nsi nn =
      (some (updateSalary (strip nsi) j.salary).2,
       { st with jobs := st.jobs.map (applyUpdate job_id
           (if strip ns = "" then j.status else some (strip ns))
           (if strip nd = "" then j.applied_date else some (strip nd))
           ((updateSalary (strip nsi) j.salary).1)
           (if strip nn = "" then j.notes else some (strip nn))) }) := by
  unfold update_job
  rw [hj]

/-- Reading the updated record back: it is the fetched job with the four
columns replaced. -/
theorem get_job_by_id_update {st : Store} {job_id : Nat} (ns nd nsi nn : String) {j : Job}
    (hj : get_job_by_id st job_id = some j) :
    get_job_by_id (update_job st job_id ns nd nsi nn).2 job_id =
      some { j with
        status := if strip ns = "" then j.status else some (strip ns),
        applied_date := if strip nd = "" then j.applied_date else some (strip nd),
        salary := (updateSalary (strip nsi) j.salary).1,
        notes := if strip nn = "" then j.notes else some (strip nn) } := by
  rw [update_job_eq ns nd nsi nn hj]
  unfold get_job_by_id at hj ⊢
  have hid : (j.id == job_id) = true := by simpa using List.find?_some hj
  dsimp only
  rw [find?_map_applyUpdate, hj]
  simp only [Option.map_some', applyUpdate, if_pos hid]

end JobTracker

namespace JobTracker

/-! ## Claim theorems -/

/-- Claim C1, counterexample: create from the empty store with every optional
field left unset (blank input), then read the new record: the location is read
back as the empty string — not as null.  Only the salary column is ever stored
as null. -/
theorem create_read_unset_not_null :
    (get_job_by_id (add_job emptyStore "Acme" "Engineer" "" "" "" "" "").2 1).map Job.location
        = some (some "") ∧
      some "" ≠ (none : Option String) :=
  ⟨rfl, by decide⟩

/-- Claim C1, amended: for inputs whose stripped company and role are non-empty,
create succeeds and read of the new id returns the record exactly as created:
company and role are the stripped inputs, every optional text field is read
back as the stripped input string — the empty string, not null, when it was
left unset — and the salary is the coerced token, null when the token was
unset or unparseable. -/
theorem create_read_roundtrip (st : Store)
    (company role location applied_date status salary_input notes : String)
    (hwf : ∀ j ∈ st.jobs, j.id < st.nextId)
    (hc : strip company ≠ "") (hr : strip role ≠ "") :
    (add_job st company role location applied_date status salary_input notes).1 =
      AddResult.saved (createSalary (strip salary_input)).2 ∧
    get_job_by_id (add_job st company role location applied_date status salary_input notes).2
        st.nextId =
      some { id := st.nextId, company := strip company, role := strip role,
             location := some (strip location), applied_date := some (strip applied_date),
             status := some (strip status),
             salary := (createSalary (strip salary_input)).1,
             notes := some (strip notes) } := by
  have hcond : ¬ (strip company = "" ∨ strip role = "") := by
    rintro (h | h)
    · exact hc h
    · exact hr h
  constructor
  · simp only [add_job]
    rw [if_neg hcond]
  · simp only [add_job]
    rw [if_neg hcond]
    unfold get_job_by_id
    dsimp only
    rw [List.find?_append]
    have h1 : st.jobs.find? (fun j => j.id == st.nextId) = none := by
      rw [List.find?_eq_none]
      intro x hx
      simpa using Nat.ne_of_lt (hwf x hx)
    rw [h1]
    simp [List.find?]

/-- Claim C1 witness: a fully populated create, read back from the empty store. -/
theorem create_read_roundtrip_witness :
    get_job_by_id (add_job emptyStore " Acme " "Engineer" "NYC" "2025-01-01" "Applied"
        "50000" "note").2 1 =
      some { id := 1, company := "Acme", role := "Engineer", location := some "NYC",
             applied_date := some "2025-01-01", status := some "Applied",
             salary := some (50000 : Rat), notes := some "note" } := by
  have h := create_read_roundtrip emptyStore " Acme " "Engineer" "NYC" "2025-01-01" "Applied"
    "50000" "note" (by decide) (by decide) (by decide)
  rw [show (1 : Nat) = emptyStore.nextId from rfl, h.2]
  rfl

/-- Claim C2: an unparseable non-empty salary token never fails the operation:
create stores the record with a null salary and signals the coercion warning;
update keeps the fetched record's previous salary (not null) and signals the
coercion warning; the dashboard's manage page handles an unparseable token the
same way as update. -/
theorem salary_coercion_policy (st : Store)
    (company role location applied_date status salary_input notes : String)
    (job_id : Nat) (ns nd nn : String) (j : Job)
    (hc : strip company ≠ "") (hr : strip role ≠ "")
    (hs : strip salary_input ≠ "") (hbad : parseSalary (strip salary_input) = none)
    (hj : get_job_by_id st job_id = some j) :
    ((add_job st company role location applied_date status salary_input notes).1 =
        AddResult.saved true ∧
      ((add_job st company role location applied_date status salary_input notes).2.jobs.getLast?).map
          Job.salary = some none) ∧
    ((update_job st job_id ns nd salary_input nn).1 = some true ∧
      (get_job_by_id (update_job st job_id ns nd salary_input nn).2 job_id).map Job.salary =
        some j.salary) ∧
    (∀ old : Option Rat, manageSalary (strip salary_input) old = (old, true)) := by
  have hcs : createSalary (strip salary_input) = (none, true) := by
    unfold createSalary
    rw [if_neg hs, hbad]
  have hus : updateSalary (strip salary_input) j.salary = (j.salary, true) := by
    unfold updateSalary
    rw [if_neg hs, hbad]
  have hcond : ¬ (strip company = "" ∨ strip role = "") := by
    rintro (h | h)
    · exact hc h
    · exact hr h
  refine ⟨⟨?_, ?_⟩, ⟨?_, ?_⟩, ?_⟩
  · simp only [add_job]
    rw [if_neg hcond, hcs]
  · simp only [add_job]
    rw [if_neg hcond]
    dsimp only
    rw [List.getLast?_concat]
    simp [hcs]
  · rw [update_job_eq ns nd salary_input nn hj]
    dsimp only
    rw [hus]
  · rw [get_job_by_id_update ns nd salary_input nn hj]
    simp [hus]
  · intro old
    unfold manageSalary
    rw [if_neg hs, hbad]

/-- Claim C2 witness: creating with salary token "abc" succeeds with a warning, and
updating an existing record (salary 50000) with token "abc" keeps 50000. -/
theorem salary_coercion_policy_witness :
    (add_job twoApplied "NewCo" "Dev" "" "" "" "abc" "").1 = AddResult.saved true ∧
    (get_job_by_id (update_job twoApplied 1 "" "" "abc" "").2 1).map Job.salary =
      some (some (50000 : Rat)) := by
  have h := salary_coercion_policy twoApplied "NewCo" "Dev" "" "" "" "abc" "" 1 "" "" ""
    appliedJob1 (by decide) (by decide) (by decide) (by decide) rfl
  refine ⟨h.1.1, ?_⟩
  rw [h.2.1.2]
  rfl

/-- Claim C3: create with a company or role that is empty after stripping
whitespace fails validation and returns the store unchanged — same record
count, same stored records; nothing is persisted. -/
theorem add_job_validation_error (st : Store)
    (company role location applied_date status salary_input notes : String)
    (h : strip company = "" ∨ strip role = "") :
    add_job st company role location applied_date status salary_input notes =
      (AddResult.validationError, st) := by
  simp only [add_job]
  rw [if_pos h]

/-- Claim C3 witness: a whitespace-only company is rejected and the empty store is
returned untouched. -/
theorem add_job_validation_error_witness :
    add_job emptyStore "   " "Engineer" "NYC" "2025-01-01" "Applied" "50000" "n" =
      (AddResult.validationError, emptyStore) :=
  add_job_validation_error emptyStore "   " "Engineer" "NYC" "2025-01-01" "Applied" "50000" "n"
    (Or.inl (by decide))

/-- Claim C4: for an existing record, each update parameter independently
defaults to "keep the existing value" when its stripped input is blank: a
blank status, applied date, salary token or notes leaves the corresponding
field of the updated record equal to its previous value (and the update
succeeds). -/
theorem update_blank_keeps_existing (st : Store) (job_id : Nat)
    (ns nd nsi nn : String) (j : Job)
    (hj : get_job_by_id st job_id = some j) :
    (update_job st job_id ns nd nsi nn).1.isSome = true ∧
    (strip ns = "" →
      (get_job_by_id (update_job st job_id ns nd nsi nn).2 job_id).map Job.status =
        some j.status) ∧
    (strip nd = "" →
      (get_job_by_id (update_job st job_id ns nd nsi nn).2 job_id).map Job.applied_date =
        some j.applied_date) ∧
    (strip nsi = "" →
      (get_job_by_id (update_job st job_id ns nd nsi nn).2 job_id).map Job.salary =
        some j.salary) ∧
    (strip nn = "" →
      (get_job_by_id (update_job st job_id ns nd nsi nn).2 job_id).map Job.notes =
        some j.notes) := by
  refine ⟨?_, ?_, ?_, ?_, ?_⟩
  · rw [update_job_eq ns nd nsi nn hj]
    rfl
  · intro hb
    rw [get_job_by_id_update ns nd nsi nn hj]
    simp [hb]
  · intro hb
    rw [get_job_by_id_update ns nd nsi nn hj]
    simp [hb]
  · intro hb
    rw [get_job_by_id_update ns nd nsi nn hj]
    simp [updateSalary, hb]
  · intro hb
    rw [get_job_by_id_update ns nd nsi nn hj]
    simp [hb]

/-- Claim C4 witness: an all-blank update of record 1 keeps its status and salary. -/
theorem update_blank_keeps_existing_witness :
    (get_job_by_id (update_job twoApplied 1 "" "" "" "").2 1).map Job.status =
      some (some "Applied") ∧
    (get_job_by_id (update_job twoApplied 1 "" "" "" "").2 1).map Job.salary =
      some (some (50000 : Rat)) := by
  have h := update_blank_keeps_existing twoApplied 1 "" "" "" "" appliedJob1 rfl
  constructor
  · rw [h.2.1 rfl]
    rfl
  · rw [h.2.2.2.1 rfl]
    rfl

/-- Claim C5: update never changes any record's id, company, role (or location):
whatever the inputs and whether or not the id exists, the id column, company
column, role column and location column — and the id counter — are identical
before and after, so update can touch only status, applied date, salary and
notes. -/
theorem update_frame (st : Store) (job_id : Nat) (ns nd nsi nn : String) :
    (update_job st job_id ns nd nsi nn).2.nextId = st.nextId ∧
    (update_job st job_id ns nd nsi nn).2.jobs.map
        (fun j => (j.id, j.company, j.role, j.location)) =
      st.jobs.map (fun j => (j.id, j.company, j.role, j.location)) := by
  unfold update_job
  cases hj : get_job_by_id st job_id with
  | none => exact ⟨rfl, rfl⟩
  | some j =>
    refine ⟨rfl, ?_⟩
    dsimp only
    rw [List.map_map]
    apply List.map_congr_left
    intro r _
    simp only [Function.comp_apply, applyUpdate]
    split <;> rfl

end JobTracker

namespace JobTracker

/-- Claim C6, counterexample: on the store reached by two creates whose statuses
are case-variants of "Applied", the status filter returns the matching ids in
ascending order [1, 2] — its query has no `ORDER BY`, so the result is not
sorted by id in strictly decreasing order. -/
theorem view_by_status_not_id_descending :
    (view_by_status twoApplied "Applied").map (fun l => l.map Job.id) = some [1, 2] ∧
    ¬ List.Pairwise (fun a b : Nat => b < a) [1, 2] :=
  ⟨rfl, by decide⟩

/-- Claim C6, amended: with a well-formed table, list (`view_all_jobs`), search
and export all return their records ordered by id strictly descending;
`view_by_status`, whose query has no `ORDER BY`, instead returns its matches in
table (rowid) order — id strictly ascending, not descending. -/
theorem read_many_ordering (st : Store) (q kw : String)
    (hwf : List.Pairwise (fun a b => a.id < b.id) st.jobs) :
    List.Pairwise (fun a b => b.id < a.id) (view_all_jobs st) ∧
    List.Pairwise (fun a b => b.id < a.id) (export_rows st) ∧
    (∀ l, search_jobs st kw = some l → List.Pairwise (fun a b => b.id < a.id) l) ∧
    (∀ l, view_by_status st q = some l → List.Pairwise (fun a b => a.id < b.id) l) := by
  have hdesc : List.Pairwise (fun a b : Job => b.id < a.id) st.jobs.reverse :=
    List.pairwise_reverse.mpr hwf
  refine ⟨hdesc, hdesc, ?_, ?_⟩
  · intro l hl
    obtain ⟨-, rfl⟩ := search_jobs_eq_some hl
    exact List.pairwise_reverse.mpr (List.Pairwise.filter _ hwf)
  · intro l hl
    obtain ⟨-, rfl⟩ := view_by_status_eq_some hl
    exact List.Pairwise.filter _ hwf

/-- Claim C6 witness: on the two-record store, the full listing is id-descending and
the "Applied" filter result is id-ascending. -/
theorem read_many_ordering_witness :
    List.Pairwise (fun a b : Job => b.id < a.id) (view_all_jobs twoApplied) ∧
    List.Pairwise (fun a b : Job => a.id < b.id)
      (twoApplied.jobs.filter (statusFilterMatches "applied")) := by
  have h := read_many_ordering twoApplied "Applied" "acme" (by decide)
  exact ⟨h.1, h.2.2.2 _ rfl⟩

/-- Claim C7: a successful status query returns a stored record iff the whole
stored status equals the whole query, case-insensitively — an exact match of
the full value, never a substring match. -/
theorem view_by_status_exact_ci (st : Store) (q : String) (j : Job) (l : List Job)
    (hl : view_by_status st q = some l) :
    j ∈ l ↔ j ∈ st.jobs ∧ ∃ t, j.status = some t ∧ lower t = lower (strip q) := by
  obtain ⟨-, rfl⟩ := view_by_status_eq_some hl
  rw [List.mem_filter]
  refine and_congr_right fun _ => ?_
  cases hs : j.status with
  | none => simp [statusFilterMatches, hs]
  | some t => simp [statusFilterMatches, hs]

/-- Claim C7 witness: a record with status "Interview" is returned for the query
"interview" but not for the prefix query "Interv". -/
theorem view_by_status_exact_ci_witness :
    interviewJob ∈ [interviewJob] ∧ interviewJob ∉ ([] : List Job) := by
  constructor
  · exact (view_by_status_exact_ci interviewStore "interview" interviewJob [interviewJob]
      rfl).mpr ⟨by decide, "Interview", rfl, rfl⟩
  · intro hmem
    obtain ⟨-, t, ht, hlow⟩ :=
      (view_by_status_exact_ci interviewStore "Interv" interviewJob [] rfl).mp hmem
    rw [show interviewJob.status = some "Interview" from rfl] at ht
    cases ht
    exact absurd hlow (by decide)

/-- Claim C8, counterexample: the non-empty keyword "a%b" — whose `%` acts as a
SQL LIKE wildcard — makes search return the record with company "axb", even
though "a%b" occurs as a substring of none of that record's company, role, or
(non-null) location. -/
theorem search_wildcard_not_substring :
    (search_jobs axbStore "a%b").map (fun l => l.map Job.id) = some [1] ∧
    ¬ ("a%b".data <:+: (lower axbJob.company).data) ∧
    ¬ ("a%b".data <:+: (lower axbJob.role).data) ∧
    axbJob.location = some "" ∧
    ¬ ("a%b".data <:+: (lower "").data) :=
  ⟨rfl, by decide, by decide, rfl, by decide⟩

/-- Claim C8, amended: for a non-empty keyword containing no LIKE wildcard
(`%` or `_`), a successful search returns a stored record iff the lowered
keyword occurs as a contiguous substring of the lowered company or of the
lowered role, or of the lowered location when the location is non-null — a
record with a null location can only match through company or role.  Keywords
containing `%` or `_` are instead interpreted as LIKE wildcard patterns. -/
theorem search_jobs_substring (st : Store) (kw : String) (j : Job) (l : List Job)
    (hl : search_jobs st kw = some l)
    (hw : ∀ c ∈ (lower (strip kw)).data, c ≠ '%' ∧ c ≠ '_') :
    j ∈ l ↔ j ∈ st.jobs ∧
      ((lower (strip kw)).data <:+: (lower j.company).data ∨
       (lower (strip kw)).data <:+: (lower j.role).data ∨
       ∃ loc, j.location = some loc ∧ (lower (strip kw)).data <:+: (lower loc).data) := by
  obtain ⟨-, rfl⟩ := search_jobs_eq_some hl
  rw [List.mem_reverse, List.mem_filter]
  exact and_congr_right fun _ => searchRowMatches_iff _ hw j

/-- Claim C8 witness: keyword "ACME" (lowered "acme") finds the record whose company
is "Acme Corp". -/
theorem search_jobs_substring_witness : acmeJob ∈ [acmeJob] :=
  (search_jobs_substring acmeStore "ACME" acmeJob [acmeJob] rfl (by decide)).mpr
    ⟨by decide, Or.inl (by decide)⟩

theorem sum_indicator_zero {α : Type} [BEq α] [LawfulBEq α] (a : α) :
    ∀ keys : List α, a ∉ keys →
      (keys.map (fun k => if a == k then 1 else 0)).sum = 0 := by
  intro keys
  induction keys with
  | nil => intro _; rfl
  | cons k ks ih =>
    intro ha
    have h1 : ¬ ((a == k) = true) := by
      simp only [beq_iff_eq]
      intro h
      exact ha (h ▸ List.mem_cons_self k ks)
    simp only [List.map_cons, List.sum_cons, if_neg h1,
      ih (fun h => ha (List.mem_cons_of_mem k h)), Nat.zero_add]

theorem sum_indicator_one {α : Type} [BEq α] [LawfulBEq α] (a : α) :
    ∀ keys : List α, keys.Nodup → a ∈ keys →
      (keys.map (fun k => if a == k then 1 else 0)).sum = 1 := by
  intro keys
  induction keys with
  | nil => intro _ ha; cases ha
  | cons k ks ih =>
    intro hnd ha
    rcases List.mem_cons.mp ha with h | h
    · subst h
      simp only [List.map_cons, List.sum_cons, beq_self_eq_true, if_pos]
      rw [sum_indicator_zero a ks (List.nodup_cons.mp hnd).1]
    · have hk : ¬ ((a == k) = true) := by
        simp only [beq_iff_eq]
        intro he
        exact (List.nodup_cons.mp hnd).1 (he ▸ h)
      simp only [List.map_cons, List.sum_cons, if_neg hk,
        ih (List.nodup_cons.mp hnd).2 h, Nat.zero_add]

/-- Counting each key of a covering duplicate-free key list partitions the
list: the counts sum to its length. -/
theorem sum_map_count_keys {α : Type} [BEq α] [LawfulBEq α] :
    ∀ (l keys : List α), keys.Nodup → (∀ x ∈ l, x ∈ keys) →
      (keys.map (fun k => l.count k)).sum = l.length := by
  intro l
  induction l with
  | nil =>
    intro keys _ _
    simp
  | cons a as ih =>
    intro keys hnd hcov
    simp only [List.count_cons]
    rw [List.sum_map_add, ih keys hnd (fun x hx => hcov x (List.mem_cons_of_mem a hx)),
      sum_indicator_one a keys hnd (hcov a (List.mem_cons_self a as)), List.length_cons]

/-- Claim C9: the per-status counts reported by `show_stats` always sum to the
total record count — they partition the records, because `GROUP BY status`
groups every row by its exact status value — and whenever null-status records
exist they are all counted in the single `NULL` group, reported under the
"Unknown" label with exactly the number of null-status records. -/
theorem show_stats_partition (st : Store) :
    ((show_stats_by_status st).map Prod.snd).sum = show_stats_total st ∧
    ((∃ j ∈ st.jobs, j.status = none) →
      ("Unknown", (st.jobs.map Job.status).count (none : Option String)) ∈
        show_stats_by_status st) := by
  constructor
  · unfold show_stats_by_status statusKeys show_stats_total
    rw [List.map_map]
    have h : (Prod.snd ∘ fun k => (statusLabel k, (st.jobs.map Job.status).count k)) =
        fun k => (st.jobs.map Job.status).count k := rfl
    rw [h, sum_map_count_keys (st.jobs.map Job.status) (st.jobs.map Job.status).dedup
      (List.nodup_dedup _) (fun x hx => List.mem_dedup.mpr hx), List.length_map]
  · rintro ⟨j, hj, hstat⟩
    unfold show_stats_by_status
    have hmem : (none : Option String) ∈ statusKeys st := by
      unfold statusKeys
      rw [List.mem_dedup]
      exact List.mem_map.mpr ⟨j, hj, hstat⟩
    exact List.mem_map.mpr ⟨none, hmem, rfl⟩

/-- Claim C9 witness: on a table with one "Unknown"-status row and one null-status
row, the counts sum to the total (2) and the null row is reported under
"Unknown" with count 1. -/
theorem show_stats_partition_witness :
    ((show_stats_by_status nullStatusStore).map Prod.snd).sum = 2 ∧
    ("Unknown", 1) ∈ show_stats_by_status nullStatusStore := by
  have h := show_stats_partition nullStatusStore
  refine ⟨by rw [h.1]; rfl, ?_⟩
  have h2 := h.2 ⟨nullStatusJob, by decide, rfl⟩
  have hc : (nullStatusStore.jobs.map Job.status).count (none : Option String) = 1 := rfl
  rw [hc] at h2
  exact h2

/-- Claim C10: a stored record whose status is null is never returned by the
status filter, whatever query string the caller supplies — `LOWER(NULL)` is
`NULL`, which compares equal to nothing, and a blank query performs no query
at all. -/
theorem null_status_unfilterable (st : Store) (q : String) (l : List Job) (j : Job)
    (hl : view_by_status st q = some l) (hstat : j.status = none) :
    j ∉ l := by
  obtain ⟨-, rfl⟩ := view_by_status_eq_some hl
  intro hmem
  have hm := (List.mem_filter.mp hmem).2
  simp [statusFilterMatches, hstat] at hm

/-- Claim C10 witness: on a table with a null-status row and a literal
"Unknown"-status row, the query "unknown" returns only the literal row — the
null-status row is not in the result. -/
theorem null_status_unfilterable_witness :
    nullStatusJob ∉ [unknownStatusJob] :=
  null_status_unfilterable nullStatusStore "unknown" [unknownStatusJob] nullStatusJob rfl rfl

end JobTracker
